import Mathlib

/-!
Shallow embedding of the backend-selection, surface-pool and decode-dispatch
logic of `src/h264_decoder_filter.cpp`.

COM status codes (`HRESULT`) are 32-bit signed integers; a call failed
exactly when the value is negative.  We model them as `Int` and keep the
numeric values of the codes the file uses.  GUIDs, pixel-format FOURCC codes
and service identifiers are modelled as `Nat` tokens; only (in)equality of
these identifiers matters in the translated code.  External collaborators
(the hardware-environment singleton, the DirectX services, the renderer pins,
the codec library) are modelled as explicit environment records supplying the
answers of each call the translated function makes.
-/

namespace H264Dec

/-- HRESULT success code `S_OK = 0`. -/
def S_OK : Int := 0

/-- HRESULT success code `S_FALSE = 1` (used as the need-more-input status). -/
def S_FALSE : Int := 1

/-- HRESULT failure code `E_FAIL = 0x80004005` as a signed 32-bit value. -/
def E_FAIL : Int := 0x80004005 - 0x100000000

/-- HRESULT failure code `E_POINTER = 0x80004003` as a signed 32-bit value. -/
def E_POINTER : Int := 0x80004003 - 0x100000000

/-- HRESULT failure code `E_UNEXPECTED = 0x8000FFFF` as a signed 32-bit value. -/
def E_UNEXPECTED : Int := 0x8000FFFF - 0x100000000

/-- HRESULT failure code `E_NOINTERFACE = 0x80004002` as a signed 32-bit value. -/
def E_NOINTERFACE : Int := 0x80004002 - 0x100000000

/-- HRESULT failure code `E_NOTIMPL = 0x80004001` as a signed 32-bit value. -/
def E_NOTIMPL : Int := 0x80004001 - 0x100000000

/-- HRESULT failure code `MF_E_UNSUPPORTED_SERVICE = 0xC00D36BA` as a signed
32-bit value. -/
def MF_E_UNSUPPORTED_SERVICE : Int := 0xC00D36BA - 0x100000000

/-- HRESULT failure code `VFW_E_NOT_CONNECTED = 0x80040209` as a signed
32-bit value. -/
def VFW_E_NOT_CONNECTED : Int := 0x80040209 - 0x100000000

/-- The `FAILED` macro: an HRESULT denotes failure iff it is negative. -/
def FAILED (hr : Int) : Bool := hr < 0

/-- The `SUCCEEDED` macro: an HRESULT denotes success iff it is nonnegative. -/
def SUCCEEDED (hr : Int) : Bool := 0 ≤ hr

/-- `KDXVAH264Compatibility` flag `DXVA_UNSUPPORTED_LEVEL = 1`. -/
def DXVA_UNSUPPORTED_LEVEL : Int := 1

/-- `KDXVAH264Compatibility` flag `DXVA_TOO_MUCH_REF_FRAMES = 2`. -/
def DXVA_TOO_MUCH_REF_FRAMES : Int := 2

/-! ### Driver-version comparison (`hasDriverVersionReached`) -/

/-- `HIWORD(version.HighPart)`: bits 48..63 of the packed 64-bit driver
version, i.e. the major component. -/
def versionMajor (v : Nat) : Nat := v / 2 ^ 48 % 2 ^ 16

/-- `LOWORD(version.HighPart)`: bits 32..47 of the packed 64-bit driver
version, i.e. the minor component. -/
def versionMinor (v : Nat) : Nat := v / 2 ^ 32 % 2 ^ 16

/-- `HIWORD(version.LowPart)`: bits 16..31 of the packed 64-bit driver
version, i.e. the build component. -/
def versionBuild (v : Nat) : Nat := v / 2 ^ 16 % 2 ^ 16

/-- `LOWORD(version.LowPart)`: bits 0..15 of the packed 64-bit driver
version, i.e. the revision component. -/
def versionRevision (v : Nat) : Nat := v % 2 ^ 16

/-- Packs four 16-bit components into the 64-bit driver-version layout the
hardware-environment collaborator reports (major in the top word). -/
def packVersion (a b c d : Nat) : Nat :=
  a * 2 ^ 48 + b * 2 ^ 32 + c * 2 ^ 16 + d

/-- Translation of `hasDriverVersionReached` (h264_decoder_filter.cpp,
lines 343-365): the nested word-by-word comparison of the packed driver
version `v` against the threshold components `a, b, c, d`.  The extracted
words are unsigned 16-bit values promoted to `int` before each comparison. -/
def hasDriverVersionReached (v : Nat) (a b c d : Int) : Bool :=
  if (versionMajor v : Int) > a then true
  else if (versionMajor v : Int) = a then
    if (versionMinor v : Int) > b then true
    else if (versionMinor v : Int) = b then
      if (versionBuild v : Int) > c then true
      else if (versionBuild v : Int) = c then
        if (versionRevision v : Int) ≥ d then true
        else false
      else false
    else false
  else false

/-- Lexicographic ≥ on (major, minor, build, revision) 4-tuples, the order
the spec says `hasDriverVersionReached` implements. -/
def tupleLexGE (x y : Int × Int × Int × Int) : Prop :=
  x.1 > y.1 ∨ (x.1 = y.1 ∧ (x.2.1 > y.2.1 ∨ (x.2.1 = y.2.1 ∧
    (x.2.2.1 > y.2.2.1 ∨ (x.2.2.1 = y.2.2.1 ∧ x.2.2.2 ≥ y.2.2.2)))))

instance (x y : Int × Int × Int × Int) : Decidable (tupleLexGE x y) := by
  unfold tupleLexGE; infer_instance

/-- The 4-tuple of words of a packed driver version, as `int` values. -/
def versionWords (v : Nat) : Int × Int × Int × Int :=
  ((versionMajor v : Int), (versionMinor v : Int),
   (versionBuild v : Int), (versionRevision v : Int))

/-! ### `checkHWCompatibilityForH264` -/

/-- PCI vendor identifier `CHardwareEnv::PCI_VENDOR_NVIDIA` (standard PCI id
0x10DE; declared in the repository's `common/hardware_env.h`, outside the
core source file — only distinctness of the three vendor ids matters to the
translated branches). -/
def PCI_VENDOR_NVIDIA : Int := 0x10DE

/-- PCI vendor identifier `CHardwareEnv::PCI_VENDOR_S3_GRAPHICS` (standard
PCI id 0x5333). -/
def PCI_VENDOR_S3_GRAPHICS : Int := 0x5333

/-- PCI vendor identifier `CHardwareEnv::PCI_VENDOR_ATI` (standard PCI id
0x1002). -/
def PCI_VENDOR_ATI : Int := 0x1002

/-- Answers of the process-wide hardware-environment collaborator
(`CHardwareEnv::get()`) and of `win_util::GetWinVersion()`, queried by
`checkHWCompatibilityForH264`. -/
structure HardwareEnv where
  vendor : Int
  device : Int
  driverVersion : Nat
  winAtLeastVista : Bool

/-- The pre-override reference-frame ceiling `maxRefFramesDPB41`
(h264_decoder_filter.cpp, line 381): `std::min(11, 8388608 / (width * height))`
with C `int` division (truncation toward zero). -/
def maxRefFramesDPB41 (width height : Int) : Int :=
  min 11 (Int.tdiv 8388608 (width * height))

/-- The vendor-specific gate of `checkHWCompatibilityForH264`
(h264_decoder_filter.cpp, lines 383-429), returning the pair
`(noLevel51Support, maxRefFrames)` after the vendor branches ran:
NVIDIA gates on one of two driver thresholds depending on the OS era and
overrides the ceiling (16 for width ≥ 1280 else 11 on Vista+, 14 on XP);
S3 Graphics unconditionally clears `noLevel51Support`; ATI gates on a
device-id range (`device >> 8` equal to 0x68 or 0x94) plus one threshold and
overrides the ceiling to 16. -/
def vendorGate (env : HardwareEnv) (width height : Int) : Int × Int :=
  let base := maxRefFramesDPB41 width height
  if env.vendor = PCI_VENDOR_NVIDIA then
    if env.winAtLeastVista then
      if hasDriverVersionReached env.driverVersion 7 15 11 7800 then
        (0, if width ≥ 1280 then 16 else 11)
      else (1, base)
    else
      if hasDriverVersionReached env.driverVersion 6 14 11 7800 then (0, 14)
      else (1, base)
  else if env.vendor = PCI_VENDOR_S3_GRAPHICS then (0, base)
  else if env.vendor = PCI_VENDOR_ATI then
    if env.device >>> 8 = 0x68 ∨ env.device >>> 8 = 0x94 then
      if hasDriverVersionReached env.driverVersion 8 14 1 6105 then (0, 16)
      else (1, base)
    else (1, base)
  else (1, base)

/-- Translation of `checkHWCompatibilityForH264` (h264_decoder_filter.cpp,
lines 367-439).  The locals `noLevel51Support`, `tooMuchRefFrames` and
`maxRefFrames` start at `1`, `0`, `0`; the `videoLevel >= 0` block computes
the ceiling and the vendor gate and sets `tooMuchRefFrames` iff
`refFrameCount > maxRefFrames`; the result packs the two flags as
`hasVideoLevelReached51 * noLevel51Support * DXVA_UNSUPPORTED_LEVEL +
tooMuchRefFrames * DXVA_TOO_MUCH_REF_FRAMES`. -/
def checkHWCompatibilityForH264 (env : HardwareEnv)
    (width height videoLevel refFrameCount : Int) : Int :=
  let flags :=
    if videoLevel ≥ 0 then
      let g := vendorGate env width height
      (g.1, if refFrameCount > g.2 then (1 : Int) else 0)
    else (1, 0)
  let hasVideoLevelReached51 : Int := if videoLevel ≥ 51 then 1 else 0
  hasVideoLevelReached51 * flags.1 * DXVA_UNSUPPORTED_LEVEL +
    flags.2 * DXVA_TOO_MUCH_REF_FRAMES

/-- The effective (possibly vendor-overridden) reference-frame ceiling the
check compares `refFrameCount` against once `videoLevel ≥ 0`. -/
def effectiveMaxRefFrames (env : HardwareEnv) (width height : Int) : Int :=
  (vendorGate env width height).2

/-! ### Decoder backends and `ActivateDXVA1` -/

/-- The active decode backend held in `m_decoder`: legacy hardware
(`CH264DXVA1Decoder`), modern hardware (`CH264DXVA2Decoder`) or software
(`CH264SWDecoder`).  The hardware variants carry the decoder GUID they were
constructed with. -/
inductive Decoder where
  | dxva1 (decoderID : Nat)
  | dxva2 (decoderID : Nat)
  | software
deriving DecidableEq, Repr

/-- `GUID_NULL`, as a GUID token. -/
def GUID_NULL : Nat := 0

/-- The value `GetDecoderID()` reports for a backend; the software backend
carries no hardware decoder GUID. -/
def decoderIDOf : Decoder → Nat
  | .dxva1 g => g
  | .dxva2 g => g
  | .software => GUID_NULL

/-- The stream parameters `ActivateDXVA1` reads from the pre-decode context
(`m_preDecode->GetWidth/GetHeight/GetVideoLevel/GetRefFrameCount`). -/
structure StreamDesc where
  width : Int
  height : Int
  videoLevel : Int
  refFrameCount : Int
deriving DecidableEq, Repr

/-- State of `CH264DecoderFilter` that `ActivateDXVA1` consults: whether the
pre-decode context exists and which backend (if any) is currently active. -/
structure DXVA1FilterState where
  preDecode : Option StreamDesc
  currentDecoder : Option Decoder
deriving DecidableEq, Repr

/-- Translation of `CH264DecoderFilter::ActivateDXVA1`
(h264_decoder_filter.cpp, lines 773-797).  `accel` tells whether the
`IAMVideoAccelerator` argument is non-null and `dID` whether/which decoder
GUID was passed.  Returns the HRESULT, the final `m_decoder` state and
whether a new `CH264DXVA1Decoder` instance was constructed.  Note the veto
tests `DXVA_UNSUPPORTED_LEVEL == campatible`, an equality on the whole flag
word, not a bit test. -/
def ActivateDXVA1 (st : DXVA1FilterState) (hw : HardwareEnv)
    (accel : Bool) (dID : Option Nat) : Int × Option Decoder × Bool :=
  match st.preDecode with
  | none => (E_FAIL, st.currentDecoder, false)
  | some sd =>
    if ¬accel ∨ dID = none then (E_POINTER, st.currentDecoder, false)
    else
      match dID with
      | none => (E_POINTER, st.currentDecoder, false)
      | some g =>
        if (match st.currentDecoder with
            | some d => decoderIDOf d == g
            | none => false) then
          (S_OK, st.currentDecoder, false)
        else
          let campatible := checkHWCompatibilityForH264 hw sd.width sd.height
            sd.videoLevel sd.refFrameCount
          if DXVA_UNSUPPORTED_LEVEL = campatible then (E_FAIL, none, false)
          else (S_OK, some (.dxva1 g), true)

/-! ### `CDXVA2Sample::GetService` -/

/-- `MR_BUFFER_SERVICE`, as a service-GUID token (any fixed token distinct
from other service GUIDs). -/
def MR_BUFFER_SERVICE : Nat := 1

/-- A Direct3D surface handle, as an abstract token. -/
abbrev Surface : Type := Nat

/-- The fields of `CDXVA2Sample` that `setSurface`/`GetService` touch:
the bound surface pointer (`none` models a null `m_surface`) and the slot
index. -/
structure DXVA2Sample where
  m_surface : Option Surface
  m_surfaceID : Int
deriving DecidableEq, Repr

/-- A freshly constructed `CDXVA2Sample` (h264_decoder_filter.cpp,
lines 35-40): null surface, index 0. -/
def DXVA2Sample.new : DXVA2Sample := ⟨none, 0⟩

/-- Translation of `CDXVA2Sample::setSurface` (h264_decoder_filter.cpp,
lines 94-98): stores the surface pointer and the slot index. -/
def DXVA2Sample.setSurface (s : DXVA2Sample) (surfaceID : Int)
    (surface : Option Surface) : DXVA2Sample :=
  { s with m_surface := surface, m_surfaceID := surfaceID }

/-- What a call to `CDXVA2Sample::GetService` does: return an HRESULT
without touching the surface, delegate to `m_surface->QueryInterface`, or
dereference a null `m_surface`. -/
inductive GetServiceOutcome where
  | ret (hr : Int)
  | delegate (surf : Surface)
  | nullDeref
deriving DecidableEq, Repr

/-- Translation of `CDXVA2Sample::GetService` (h264_decoder_filter.cpp,
lines 83-92): a service other than `MR_BUFFER_SERVICE` is refused with
`MF_E_UNSUPPORTED_SERVICE`; then the code returns `E_NOINTERFACE` when
`m_surface` is non-null (`if (m_surface)`) and otherwise calls
`m_surface->QueryInterface` on the null pointer. -/
def DXVA2Sample.GetService (s : DXVA2Sample) (service : Nat) :
    GetServiceOutcome :=
  if service ≠ MR_BUFFER_SERVICE then .ret MF_E_UNSUPPORTED_SERVICE
  else
    match s.m_surface with
    | some _ => .ret E_NOINTERFACE
    | none => .nullDeref

/-! ### `ConfirmDXVA2UncompFormat` -/

/-- FOURCC code, little-endian packing of four characters as in
`MAKEFOURCC`. -/
def makeFourCC (a b c d : Nat) : Nat :=
  a + b * 2 ^ 8 + c * 2 ^ 16 + d * 2 ^ 24

/-- `MAKEFOURCC('N','V','1','2')`. -/
def FOURCC_NV12 : Nat := makeFourCC 78 86 49 50

/-- The fields of `DXVA2_ConfigPictureDecode` the translated code reads:
`ConfigBitstreamRaw`, plus an abstract tag standing for the remaining
fields (so distinct configurations stay distinct). -/
structure ConfigPictureDecode where
  configBitstreamRaw : Int
  tag : Nat
deriving DecidableEq, Repr

/-- One render target offered by `GetDecoderRenderTargets`, paired with the
answer `GetDecoderConfigurations` would give for it (`none` models a failed
configuration query, `some l` a successful one returning list `l`). -/
structure RenderTarget where
  format : Nat
  configQuery : Option (List ConfigPictureDecode)
deriving DecidableEq, Repr

/-- The inner `j` loop of `ConfirmDXVA2UncompFormat`
(h264_decoder_filter.cpp, lines 988-993): each configuration is written to
`*selectedConfig` in turn (`sel` holds the last write, `none` before any)
and the loop returns early — second component `true` — at the first
configuration with `ConfigBitstreamRaw == 2`. -/
def selectConfigLoop (sel : Option ConfigPictureDecode) :
    List ConfigPictureDecode → Option ConfigPictureDecode × Bool
  | [] => (sel, false)
  | c :: rest =>
    if c.configBitstreamRaw = 2 then (some c, true)
    else selectConfigLoop (some c) rest

/-- The inner loop together with its exit line
`return configCount ? S_OK : E_FAIL` (h264_decoder_filter.cpp,
lines 988-995): an early return yields `S_OK` with the matched
configuration; otherwise `S_OK` with whatever the last write left iff the
list was non-empty. -/
def selectConfig (configs : List ConfigPictureDecode) :
    Int × Option ConfigPictureDecode :=
  match selectConfigLoop none configs with
  | (sel, true) => (S_OK, sel)
  | (sel, false) =>
    if configs.length ≠ 0 then (S_OK, sel) else (E_FAIL, none)

/-- The outer `i` loop of `ConfirmDXVA2UncompFormat`
(h264_decoder_filter.cpp, lines 965-998): non-NV12 targets are skipped, a
failed configuration query skips to the next target, and the first NV12
target whose query succeeds decides the result via `selectConfig`. -/
def confirmLoop (targets : List RenderTarget) :
    Int × Option ConfigPictureDecode :=
  match targets with
  | [] => (E_FAIL, none)
  | t :: rest =>
    if t.format ≠ FOURCC_NV12 then confirmLoop rest
    else
      match t.configQuery with
      | none => confirmLoop rest
      | some configs => selectConfig configs

/-- Translation of `CH264DecoderFilter::ConfirmDXVA2UncompFormat`
(h264_decoder_filter.cpp, lines 951-999).  `renderTargets = none` models a
failed `GetDecoderRenderTargets` call returning HRESULT `errHR`; otherwise
the target list drives `confirmLoop`.  The second component is the selected
configuration on success. -/
def ConfirmDXVA2UncompFormat (renderTargets : Option (List RenderTarget))
    (errHR : Int) : Int × Option ConfigPictureDecode :=
  match renderTargets with
  | none => (errHR, none)
  | some targets => confirmLoop targets

/-! ### `Receive`: padding prelude -/

/-- The per-sample buffer geometry `Receive` reads from the input
`IMediaSample`: `GetSize()` (allocated bytes) and `GetActualDataLength()`
(payload bytes). -/
structure SampleBuffer where
  size : Int
  dataLength : Int
deriving DecidableEq, Repr

/-- Effect of the padding prelude of `CH264DecoderFilter::Receive`
(h264_decoder_filter.cpp, lines 715-724) on a media-stream sample whose
`GetPointer` call succeeded: `assertViolated` records whether the
`inSample->GetSize() < dataLength + padding` check fired its
`assert(false)` (a no-op in release builds; the commented-out
reconfiguration is absent), and `memsetStart`/`memsetLen` describe the
zero-fill `memset(data + dataLength, 0, padding)` the code then performs
unconditionally. -/
structure PaddingEffect where
  assertViolated : Bool
  memsetStart : Int
  memsetLen : Int
deriving DecidableEq, Repr

/-- The padding prelude itself: the bounds check is advisory only and the
zero-fill always writes `padding` bytes at offset `dataLength`. -/
def receivePadding (buf : SampleBuffer) (padding : Int) : PaddingEffect :=
  { assertViolated := buf.size < buf.dataLength + padding
  , memsetStart := buf.dataLength
  , memsetLen := padding }

/-- The zero-fill stays within the sample buffer iff its end offset is at
most the allocated size. -/
def paddingWriteInBounds (buf : SampleBuffer) (eff : PaddingEffect) : Prop :=
  eff.memsetStart + eff.memsetLen ≤ buf.size

instance (buf : SampleBuffer) (eff : PaddingEffect) :
    Decidable (paddingWriteInBounds buf eff) := by
  unfold paddingWriteInBounds; infer_instance

/-! ### `Receive`: the per-sample dispatch loop -/

/-- Answers of the collaborators for one iteration of the dispatch loop of
`Receive` (h264_decoder_filter.cpp, lines 739-768): the HRESULT of
`InitializeOutputSample`, of `m_decoder->Decode` together with the
`usedBytes` it reports, of `m_decoder->DisplayNextFrame`, and of
`m_pOutput->Deliver`. -/
structure DecodeStep where
  initHR : Int
  decodeHR : Int
  usedBytes : Int
  displayHR : Int
  deliverHR : Int
deriving DecidableEq, Repr

/-- Observable calls the dispatch loop makes to the backend and downstream. -/
inductive LoopEvent where
  | decode
  | display
  | deliver
deriving DecidableEq, Repr

/-- The dispatch loop of `Receive` (h264_decoder_filter.cpp, lines 737-770),
with `steps k` the collaborator answers of the `k`-th iteration and `fuel`
an upper bound on iterations (the C loop has none; `none` means the bound
was exhausted with the loop still running).  Per iteration:
`InitializeOutputSample` failure aborts; `Decode` runs; `S_FALSE` ends the
call with `S_OK`; other failures abort; otherwise `DisplayNextFrame` runs
and, exactly when it answers `E_NOTIMPL`, the sample is delivered; a failed
result aborts; finally the cursor advances by `usedBytes` and the loop
re-tests `dataRemaining > 0`.  On normal exit the last HRESULT (`lastHR`
before any iteration) is returned.  The event list records the backend and
downstream calls made. -/
def receiveLoop (steps : Nat → DecodeStep) (k : Nat) (remaining lastHR : Int)
    (fuel : Nat) : Option (Int × List LoopEvent) :=
  if remaining ≤ 0 then some (lastHR, [])
  else
    match fuel with
    | 0 => none
    | fuel + 1 =>
      let st := steps k
      if FAILED st.initHR then some (st.initHR, [])
      else if st.decodeHR = S_FALSE then some (S_OK, [.decode])
      else if FAILED st.decodeHR then some (st.decodeHR, [.decode])
      else
        let afterDisplay :=
          if st.displayHR = E_NOTIMPL then
            (st.deliverHR, [LoopEvent.decode, .display, .deliver])
          else (st.displayHR, [LoopEvent.decode, .display])
        if FAILED afterDisplay.1 then some afterDisplay
        else
          match receiveLoop steps (k + 1) (remaining - st.usedBytes)
              afterDisplay.1 fuel with
          | none => none
          | some (hr, evs) => some (hr, afterDisplay.2 ++ evs)

/-! ### `ActivateDXVA2`, `CreateDXVA2Decoder` and `CompleteConnect` -/

/-- One decoder device GUID enumerated by `GetDecoderDeviceGuids`, with the
answers the filter's own checks and the decoder service would give for it:
whether `IsFormatSupported` accepts it and the `ConfirmDXVA2UncompFormat`
outcome (`none` models a failed confirmation, `some cfg` success selecting
`cfg`). -/
structure DXVA2Candidate where
  guid : Nat
  supported : Bool
  confirm : Option ConfigPictureDecode
deriving DecidableEq, Repr

/-- Answers of the collaborators inside `CreateDXVA2Decoder`
(h264_decoder_filter.cpp, lines 866-908): the HRESULTs of
`GetVideoService`, `CreateSurface` and `CreateVideoDecoder`. -/
structure CreateDecoderEnv where
  accelServiceHR : Int
  createSurfaceHR : Int
  createVideoDecoderHR : Int
deriving DecidableEq, Repr

/-- Answers of the collaborators `ActivateDXVA2` calls, in call order
(h264_decoder_filter.cpp, lines 799-864): whether the output pin is
connected, the HRESULTs of the `IMFGetService` query, the
acceleration-service query, `OpenDeviceHandle`, `GetVideoService` and
`GetDecoderDeviceGuids`, the enumerated candidates, the HRESULT of
`configureEVRForDXVA2`, and the `CreateDXVA2Decoder` collaborators. -/
structure DXVA2Env where
  pinConnected : Bool
  qiGetServiceHR : Int
  accelServiceQueryHR : Int
  openDeviceHR : Int
  videoServiceHR : Int
  getGuidsHR : Int
  candidates : List DXVA2Candidate
  configureEVRHR : Int
  create : CreateDecoderEnv
deriving DecidableEq, Repr

/-- Result of an activation attempt: the HRESULT, whether the DXVA2 surface
pool was allocated (`CreateSurface` succeeded), and the backend instance
created (if any). -/
structure ActivationResult where
  hr : Int
  poolAllocated : Bool
  decoder : Option Decoder
deriving DecidableEq, Repr

/-- Translation of `CH264DecoderFilter::CreateDXVA2Decoder`
(h264_decoder_filter.cpp, lines 866-908): video-service query, surface
allocation (`CreateSurface` — the only point where the DXVA2 surface pool
comes to exist), then decoder creation; any failure propagates, and the
pool exists from the moment `CreateSurface` succeeded. -/
def CreateDXVA2Decoder (env : CreateDecoderEnv) (decoderID : Nat) :
    ActivationResult :=
  if FAILED env.accelServiceHR then ⟨env.accelServiceHR, false, none⟩
  else if FAILED env.createSurfaceHR then ⟨env.createSurfaceHR, false, none⟩
  else if FAILED env.createVideoDecoderHR then
    ⟨env.createVideoDecoderHR, true, none⟩
  else ⟨env.createVideoDecoderHR, true, some (.dxva2 decoderID)⟩

/-- The candidate loop of `ActivateDXVA2` (h264_decoder_filter.cpp,
lines 840-861): skip GUIDs failing `IsFormatSupported`, skip GUIDs whose
format confirmation fails, and for the first remaining candidate run
`configureEVRForDXVA2` (failure aborts the whole activation) and then
`CreateDXVA2Decoder`; an exhausted list yields `E_FAIL`. -/
def dxva2CandidateLoop (env : DXVA2Env) :
    List DXVA2Candidate → ActivationResult
  | [] => ⟨E_FAIL, false, none⟩
  | c :: rest =>
    if ¬c.supported then dxva2CandidateLoop env rest
    else
      match c.confirm with
      | none => dxva2CandidateLoop env rest
      | some _ =>
        if FAILED env.configureEVRHR then ⟨env.configureEVRHR, false, none⟩
        else CreateDXVA2Decoder env.create c.guid

/-- Translation of `CH264DecoderFilter::ActivateDXVA2`
(h264_decoder_filter.cpp, lines 799-864): the chain of service queries,
each failure propagating immediately, then the candidate loop. -/
def ActivateDXVA2 (env : DXVA2Env) : ActivationResult :=
  if ¬env.pinConnected then ⟨VFW_E_NOT_CONNECTED, false, none⟩
  else if FAILED env.qiGetServiceHR then ⟨env.qiGetServiceHR, false, none⟩
  else if FAILED env.accelServiceQueryHR then
    ⟨env.accelServiceQueryHR, false, none⟩
  else if FAILED env.openDeviceHR then ⟨env.openDeviceHR, false, none⟩
  else if FAILED env.videoServiceHR then ⟨env.videoServiceHR, false, none⟩
  else if FAILED env.getGuidsHR then ⟨env.getGuidsHR, false, none⟩
  else dxva2CandidateLoop env env.candidates

/-- Translation of the output-pin branch of
`CH264DecoderFilter::CompleteConnect` (h264_decoder_filter.cpp,
lines 658-671).  `current` is `m_decoder` on entry (set iff DXVA1 was
already activated) and `initOK` the result of its `Init` call; when no
decoder survives, `ActivateDXVA2` runs and on failure the software backend
`CH264SWDecoder` is constructed (its constructor cannot fail).  Returns the
final `m_decoder` and whether a DXVA2 surface pool was allocated. -/
def CompleteConnectOutput (current : Option Decoder) (initOK : Bool)
    (env : DXVA2Env) : Option Decoder × Bool :=
  let afterInit : Option Decoder :=
    match current with
    | some d => if initOK then some d else none
    | none => none
  match afterInit with
  | some d => (some d, false)
  | none =>
    let res := ActivateDXVA2 env
    if ¬(SUCCEEDED res.hr) then (some .software, res.poolAllocated)
    else (res.decoder, res.poolAllocated)

/-! ### `CDXVA2Allocator::Alloc` -/

/-- Answers of the collaborators `CDXVA2Allocator::Alloc` uses
(h264_decoder_filter.cpp, lines 115-157): the HRESULT of
`CBaseAllocator::Alloc`, the sample count `m_lCount`, the HRESULT each
`CDXVA2Sample` constructor reports per slot index, and the surface
`m_decoder->GetSurface` returns per index (`none` models a null pointer). -/
structure AllocEnv where
  baseAllocHR : Int
  count : Int
  sampleCreateHR : Nat → Int
  surfaceAt : Nat → Option Surface

/-- The descending `m_lAllocated` loop of `Alloc` (h264_decoder_filter.cpp,
lines 128-147): with `i + 1` slots left the current index is `i`; the
sample constructor may fail, the surface lookup may return null
(`E_UNEXPECTED`), and otherwise the sample is bound to the surface at its
own index and appended to the free list.  Returns the last HRESULT, whether
the loop broke on failure, and the list of (index, surface) bindings in
construction order. -/
def allocLoop (env : AllocEnv) :
    Nat → Int → List (Nat × Surface) → Int × Bool × List (Nat × Surface)
  | 0, r, acc => (r, false, acc)
  | i + 1, _, acc =>
    let r := env.sampleCreateHR i
    if FAILED r then (r, true, acc)
    else
      match env.surfaceAt i with
      | none => (E_UNEXPECTED, true, acc)
      | some s => allocLoop env i r (acc ++ [(i, s)])

/-- Translation of `CDXVA2Allocator::Alloc` (h264_decoder_filter.cpp,
lines 115-157).  `prev` is the free list before the call.  A failed
`CBaseAllocator::Alloc` returns early with the list untouched; otherwise
`Free()` empties the list, the descending loop runs, and on any mid-loop
failure `Free()` runs again so no partial pool survives. -/
def AllocatorAlloc (env : AllocEnv) (prev : List (Nat × Surface)) :
    Int × List (Nat × Surface) :=
  if FAILED env.baseAllocHR then (env.baseAllocHR, prev)
  else
    match allocLoop env env.count.toNat env.baseAllocHR [] with
    | (r, true, _) => (r, [])
    | (r, false, acc) => (r, acc)

/-! ## Supporting lemmas -/

lemma hasDriverVersionReached_iff (v : Nat) (a b c d : Int) :
    hasDriverVersionReached v a b c d = true ↔
      tupleLexGE (versionWords v) (a, b, c, d) := by
  unfold hasDriverVersionReached tupleLexGE versionWords
  split_ifs <;> simp_all

lemma versionMajor_pack (a b c d : Nat) (ha : a < 2 ^ 16) (hb : b < 2 ^ 16)
    (hc : c < 2 ^ 16) (hd : d < 2 ^ 16) :
    versionMajor (packVersion a b c d) = a := by
  unfold versionMajor packVersion
  omega

lemma versionMinor_pack (a b c d : Nat) (ha : a < 2 ^ 16) (hb : b < 2 ^ 16)
    (hc : c < 2 ^ 16) (hd : d < 2 ^ 16) :
    versionMinor (packVersion a b c d) = b := by
  unfold versionMinor packVersion
  omega

lemma versionBuild_pack (a b c d : Nat) (ha : a < 2 ^ 16) (hb : b < 2 ^ 16)
    (hc : c < 2 ^ 16) (hd : d < 2 ^ 16) :
    versionBuild (packVersion a b c d) = c := by
  unfold versionBuild packVersion
  omega

lemma versionRevision_pack (a b c d : Nat) (ha : a < 2 ^ 16)
    (hb : b < 2 ^ 16) (hc : c < 2 ^ 16) (hd : d < 2 ^ 16) :
    versionRevision (packVersion a b c d) = d := by
  unfold versionRevision packVersion
  omega

lemma versionWords_pack (a b c d : Nat) (ha : a < 2 ^ 16) (hb : b < 2 ^ 16)
    (hc : c < 2 ^ 16) (hd : d < 2 ^ 16) :
    versionWords (packVersion a b c d) =
      ((a : Int), (b : Int), (c : Int), (d : Int)) := by
  unfold versionWords
  rw [versionMajor_pack a b c d ha hb hc hd,
    versionMinor_pack a b c d ha hb hc hd,
    versionBuild_pack a b c d ha hb hc hd,
    versionRevision_pack a b c d ha hb hc hd]

lemma FAILED_eq_not_SUCCEEDED (hr : Int) : FAILED hr = !SUCCEEDED hr := by
  simp only [FAILED, SUCCEEDED, ← decide_not, decide_eq_decide]
  omega

lemma FAILED_false_of_SUCCEEDED {hr : Int} (h : SUCCEEDED hr = true) :
    FAILED hr = false := by
  rw [FAILED_eq_not_SUCCEEDED, h]
  rfl

lemma SUCCEEDED_of_FAILED_false {hr : Int} (h : FAILED hr = false) :
    SUCCEEDED hr = true := by
  rw [FAILED_eq_not_SUCCEEDED] at h
  simpa using h

lemma SUCCEEDED_false_of_FAILED {hr : Int} (h : FAILED hr = true) :
    SUCCEEDED hr = false := by
  rw [FAILED_eq_not_SUCCEEDED] at h
  simpa using h

lemma vendorGate_fst (env : HardwareEnv) (w h : Int) :
    (vendorGate env w h).1 = 0 ∨ (vendorGate env w h).1 = 1 := by
  unfold vendorGate
  split_ifs <;> simp

lemma tdiv_const_antitone {a b : Int} (ha : 0 < a) (hab : a ≤ b) :
    Int.tdiv 8388608 b ≤ Int.tdiv 8388608 a := by
  have hb : 0 < b := lt_of_lt_of_le ha hab
  rw [Int.tdiv_eq_ediv (by norm_num) (le_of_lt ha),
    Int.tdiv_eq_ediv (by norm_num) (le_of_lt hb)]
  rw [Int.le_ediv_iff_mul_le ha]
  calc (8388608 : Int) / b * a ≤ 8388608 / b * b := by
        have hq : (0 : Int) ≤ 8388608 / b := Int.ediv_nonneg (by norm_num) (le_of_lt hb)
        exact mul_le_mul_of_nonneg_left hab hq
    _ ≤ 8388608 := Int.ediv_mul_le _ (ne_of_gt hb)

/-! ## Claim theorems -/

/-- Claim C3: `hasDriverVersionReached` answers `true` exactly when the
packed version's (major, minor, build, revision) word tuple is
lexicographically ≥ the threshold tuple, ties included, and the induced
comparison on 16-bit 4-tuples is a total order (reflexive, total,
antisymmetric, transitive). -/
theorem claim_C3 (v a b c d a' b' c' d' a2 b2 c2 d2 : Nat)
    (ha : a < 2 ^ 16) (hb : b < 2 ^ 16) (hc : c < 2 ^ 16) (hd : d < 2 ^ 16)
    (ha' : a' < 2 ^ 16) (hb' : b' < 2 ^ 16) (hc' : c' < 2 ^ 16)
    (hd' : d' < 2 ^ 16) (ha2 : a2 < 2 ^ 16) (hb2 : b2 < 2 ^ 16)
    (hc2 : c2 < 2 ^ 16) (hd2 : d2 < 2 ^ 16) :
    (hasDriverVersionReached v a b c d = true ↔
      tupleLexGE (versionWords v) ((a : Int), (b : Int), (c : Int), (d : Int)))
    ∧ hasDriverVersionReached (packVersion a b c d) a b c d = true
    ∧ (hasDriverVersionReached (packVersion a b c d) a' b' c' d' = true ∨
       hasDriverVersionReached (packVersion a' b' c' d') a b c d = true)
    ∧ (hasDriverVersionReached (packVersion a b c d) a' b' c' d' = true →
       hasDriverVersionReached (packVersion a' b' c' d') a b c d = true →
       (a, b, c, d) = (a', b', c', d'))
    ∧ (hasDriverVersionReached (packVersion a b c d) a' b' c' d' = true →
       hasDriverVersionReached (packVersion a' b' c' d') a2 b2 c2 d2 = true →
       hasDriverVersionReached (packVersion a b c d) a2 b2 c2 d2 = true) := by
  have key : ∀ x y z w x' y' z' w' : Nat, x < 2 ^ 16 → y < 2 ^ 16 →
      z < 2 ^ 16 → w < 2 ^ 16 →
      (hasDriverVersionReached (packVersion x y z w) x' y' z' w' = true ↔
        tupleLexGE ((x : Int), (y : Int), (z : Int), (w : Int))
          ((x' : Int), (y' : Int), (z' : Int), (w' : Int))) := by
    intro x y z w x' y' z' w' hx hy hz hw
    rw [hasDriverVersionReached_iff, versionWords_pack x y z w hx hy hz hw]
  refine ⟨hasDriverVersionReached_iff v a b c d, ?_, ?_, ?_, ?_⟩
  · rw [key a b c d a b c d ha hb hc hd]
    simp [tupleLexGE]
  · rw [key a b c d a' b' c' d' ha hb hc hd,
      key a' b' c' d' a b c d ha' hb' hc' hd']
    simp only [tupleLexGE]
    omega
  · rw [key a b c d a' b' c' d' ha hb hc hd,
      key a' b' c' d' a b c d ha' hb' hc' hd']
    intro h1 h2
    simp only [tupleLexGE] at h1 h2
    simp only [Prod.mk.injEq]
    omega
  · rw [key a b c d a' b' c' d' ha hb hc hd,
      key a' b' c' d' a2 b2 c2 d2 ha' hb' hc' hd',
      key a b c d a2 b2 c2 d2 ha hb hc hd]
    intro h1 h2
    simp only [tupleLexGE] at h1 h2 ⊢
    omega

/-- Witness for C3 at a concrete version and thresholds (the NVIDIA Vista
threshold 7.15.11.7800 against itself, 6.14.11.7800 and 8.14.1.6105). -/
theorem claim_C3_witness :
    (hasDriverVersionReached (packVersion 7 15 11 7800) 7 15 11 7800 = true ↔
      tupleLexGE (versionWords (packVersion 7 15 11 7800))
        ((7 : Int), (15 : Int), (11 : Int), (7800 : Int)))
    ∧ hasDriverVersionReached (packVersion 7 15 11 7800) 7 15 11 7800 = true
    ∧ (hasDriverVersionReached (packVersion 7 15 11 7800) 6 14 11 7800 = true ∨
       hasDriverVersionReached (packVersion 6 14 11 7800) 7 15 11 7800 = true)
    ∧ (hasDriverVersionReached (packVersion 7 15 11 7800) 6 14 11 7800 = true →
       hasDriverVersionReached (packVersion 6 14 11 7800) 7 15 11 7800 = true →
       ((7 : Nat), (15 : Nat), (11 : Nat), (7800 : Nat)) = (6, 14, 11, 7800))
    ∧ (hasDriverVersionReached (packVersion 7 15 11 7800) 6 14 11 7800 = true →
       hasDriverVersionReached (packVersion 6 14 11 7800) 8 14 1 6105 = true →
       hasDriverVersionReached (packVersion 7 15 11 7800) 8 14 1 6105 = true) :=
  claim_C3 (packVersion 7 15 11 7800) 7 15 11 7800 6 14 11 7800 8 14 1 6105
    (by decide) (by decide) (by decide) (by decide) (by decide) (by decide)
    (by decide) (by decide) (by decide) (by decide) (by decide) (by decide)

/-- Claim C2: for positive dimensions and nonnegative video level,
`checkHWCompatibilityForH264` computes the pre-override ceiling
`maxRefFrames = min(11, 8388608 / (width*height))` (integer division),
which is non-increasing as the pixel count grows, and the result carries
the TOO_MANY_REF_FRAMES flag exactly when `refFrameCount` exceeds the
(possibly vendor-overridden) ceiling. -/
theorem claim_C2 (env : HardwareEnv) (w h w' h' lvl rfc : Int)
    (hw : 0 < w) (hh : 0 < h) (hw' : 0 < w') (hh' : 0 < h')
    (harea : w * h ≤ w' * h') (hl : 0 ≤ lvl) :
    maxRefFramesDPB41 w h = min 11 (Int.tdiv 8388608 (w * h))
    ∧ maxRefFramesDPB41 w' h' ≤ maxRefFramesDPB41 w h
    ∧ (checkHWCompatibilityForH264 env w h lvl rfc / 2 % 2 = 1 ↔
        rfc > effectiveMaxRefFrames env w h) := by
  refine ⟨rfl, ?_, ?_⟩
  · unfold maxRefFramesDPB41
    exact min_le_min (le_refl 11) (tdiv_const_antitone (mul_pos hw hh) harea)
  · unfold checkHWCompatibilityForH264 effectiveMaxRefFrames
    simp only [ge_iff_le, hl, if_true, DXVA_UNSUPPORTED_LEVEL,
      DXVA_TOO_MUCH_REF_FRAMES]
    rcases vendorGate_fst env w h with hg | hg <;> rw [hg] <;>
      split_ifs <;> omega

/-- Witness for C2: a 1280×720 stream against a 1920×1080 one, level 41,
8 reference frames, on a non-listed vendor. -/
theorem claim_C2_witness :
    maxRefFramesDPB41 1280 720 = min 11 (Int.tdiv 8388608 (1280 * 720))
    ∧ maxRefFramesDPB41 1920 1080 ≤ maxRefFramesDPB41 1280 720
    ∧ (checkHWCompatibilityForH264 ⟨0, 0, 0, true⟩ 1280 720 41 8 / 2 % 2 = 1 ↔
        8 > effectiveMaxRefFrames ⟨0, 0, 0, true⟩ 1280 720) :=
  claim_C2 ⟨0, 0, 0, true⟩ 1280 720 1920 1080 41 8 (by decide) (by decide)
    (by decide) (by decide) (by decide) (by decide)

/-- Hardware environment used in concrete C1 inputs: a vendor outside the
three special-cased ones (every driver field then irrelevant). -/
def hwOther : HardwareEnv := ⟨0, 0, 0, true⟩

/-- Claim C1 counterexample: for a 1000×1000 level-5.1 stream with 9
reference frames on a non-listed vendor, the classification is
`LEVEL_UNSUPPORTED + TOO_MANY_REF_FRAMES = 3` — the LEVEL_UNSUPPORTED bit
is set — yet `ActivateDXVA1` succeeds with `S_OK` and constructs a
`CH264DXVA1Decoder`, because the veto compares the whole flag word for
equality with `DXVA_UNSUPPORTED_LEVEL` instead of testing the bit. -/
theorem claim_C1_counterexample :
    checkHWCompatibilityForH264 hwOther 1000 1000 51 9 % 2 = 1
    ∧ checkHWCompatibilityForH264 hwOther 1000 1000 51 9 =
        DXVA_UNSUPPORTED_LEVEL + DXVA_TOO_MUCH_REF_FRAMES
    ∧ ActivateDXVA1 ⟨some ⟨1000, 1000, 51, 9⟩, none⟩ hwOther true (some 5) =
        (S_OK, some (.dxva1 5), true) := by
  decide

/-- Claim C1 (amended): provided no already-active backend carries the
requested decoder GUID, a classification equal to exactly
`DXVA_UNSUPPORTED_LEVEL` (LEVEL_UNSUPPORTED set, TOO_MANY_REF_FRAMES not
set) makes `ActivateDXVA1` return `E_FAIL` with no backend instance left
and none created. -/
theorem claim_C1_amended (st : DXVA1FilterState) (hw : HardwareEnv)
    (sd : StreamDesc) (g : Nat)
    (hpre : st.preDecode = some sd)
    (hcur : ∀ dcur, st.currentDecoder = some dcur → decoderIDOf dcur ≠ g)
    (hveto : checkHWCompatibilityForH264 hw sd.width sd.height sd.videoLevel
        sd.refFrameCount = DXVA_UNSUPPORTED_LEVEL) :
    ActivateDXVA1 st hw true (some g) = (E_FAIL, none, false) := by
  have hnm : (match st.currentDecoder with
      | some d => decoderIDOf d == g
      | none => false) = false := by
    cases hmd : st.currentDecoder with
    | none => rfl
    | some d => simpa using hcur d hmd
  unfold ActivateDXVA1
  rw [hpre]
  simp [hnm, hveto]

/-- Witness for the amended C1: same stream at 4 reference frames, so only
the level flag is raised, and activation is refused. -/
theorem claim_C1_witness :
    ActivateDXVA1 ⟨some ⟨1000, 1000, 51, 4⟩, none⟩ hwOther true (some 5) =
      (E_FAIL, none, false) :=
  claim_C1_amended ⟨some ⟨1000, 1000, 51, 4⟩, none⟩ hwOther ⟨1000, 1000, 51, 4⟩
    5 rfl (by simp) (by decide)

/-- A configuration without the raw-bitstream flag, tag 0. -/
def cfgA : ConfigPictureDecode := ⟨0, 0⟩

/-- A second configuration without the raw-bitstream flag, tag 1. -/
def cfgB : ConfigPictureDecode := ⟨0, 1⟩

/-- Claim C4 counterexample: one NV12 render target whose query returns the
two-element list `[cfgA, cfgB]`, neither with `ConfigBitstreamRaw == 2`;
the code returns `S_OK` having selected the LAST configuration `cfgB`, not
the first as the claim states. -/
theorem claim_C4_counterexample :
    ConfirmDXVA2UncompFormat (some [⟨FOURCC_NV12, some [cfgA, cfgB]⟩]) E_FAIL =
      (S_OK, some cfgB)
    ∧ cfgB ≠ cfgA
    ∧ cfgA.configBitstreamRaw ≠ 2 ∧ cfgB.configBitstreamRaw ≠ 2 := by
  decide

lemma selectConfigLoop_first_raw (l1 l2 : List ConfigPictureDecode)
    (craw : ConfigPictureDecode) (hl1 : ∀ c ∈ l1, c.configBitstreamRaw ≠ 2)
    (hraw : craw.configBitstreamRaw = 2) :
    ∀ sel, selectConfigLoop sel (l1 ++ craw :: l2) = (some craw, true) := by
  induction l1 with
  | nil => intro sel; simp [selectConfigLoop, hraw]
  | cons c rest ih =>
    intro sel
    have hc : c.configBitstreamRaw ≠ 2 := hl1 c (by simp)
    simp only [List.cons_append, selectConfigLoop, if_neg hc]
    exact ih (fun x hx => hl1 x (by simp [hx])) (some c)

lemma selectConfigLoop_no_raw (l : List ConfigPictureDecode)
    (clast : ConfigPictureDecode)
    (hl : ∀ c ∈ l ++ [clast], c.configBitstreamRaw ≠ 2) :
    ∀ sel, selectConfigLoop sel (l ++ [clast]) = (some clast, false) := by
  induction l with
  | nil =>
    intro sel
    simp [selectConfigLoop, hl clast (by simp)]
  | cons c rest ih =>
    intro sel
    have hc : c.configBitstreamRaw ≠ 2 := hl c (by simp)
    simp only [List.cons_append, selectConfigLoop, if_neg hc]
    exact ih (fun x hx => hl x (by simp [hx])) (some c)

lemma confirmLoop_skip (pre rest : List RenderTarget)
    (hpre : ∀ t ∈ pre, t.format ≠ FOURCC_NV12 ∨ t.configQuery = none) :
    confirmLoop (pre ++ rest) = confirmLoop rest := by
  induction pre with
  | nil => rfl
  | cons t ts ih =>
    have ht := hpre t (by simp)
    have hts : ∀ x ∈ ts, x.format ≠ FOURCC_NV12 ∨ x.configQuery = none :=
      fun x hx => hpre x (by simp [hx])
    rcases ht with ht | ht
    · simp only [List.cons_append, confirmLoop, if_pos ht]
      exact ih hts
    · by_cases hf : t.format ≠ FOURCC_NV12
      · simp only [List.cons_append, confirmLoop, if_pos hf]
        exact ih hts
      · simp only [List.cons_append, confirmLoop, if_neg hf, ht]
        exact ih hts

/-- Claim C4 (amended): for the first NV12 render target whose
configuration query succeeds — earlier targets are non-NV12 or fail the
query — the result is `S_OK` selecting the first configuration with
`ConfigBitstreamRaw == 2` when one exists, otherwise `S_OK` selecting the
LAST configuration of a non-empty list, and failure on an empty list. -/
theorem claim_C4_amended (pre rest : List RenderTarget) (q : RenderTarget)
    (configs l1 l2 : List ConfigPictureDecode)
    (craw clast : ConfigPictureDecode) (errHR : Int)
    (hpre : ∀ t ∈ pre, t.format ≠ FOURCC_NV12 ∨ t.configQuery = none)
    (hq : q.format = FOURCC_NV12) (hqc : q.configQuery = some configs) :
    (configs = l1 ++ craw :: l2 → (∀ c ∈ l1, c.configBitstreamRaw ≠ 2) →
       craw.configBitstreamRaw = 2 →
       ConfirmDXVA2UncompFormat (some (pre ++ q :: rest)) errHR =
         (S_OK, some craw))
    ∧ ((∀ c ∈ configs, c.configBitstreamRaw ≠ 2) → configs = l1 ++ [clast] →
       ConfirmDXVA2UncompFormat (some (pre ++ q :: rest)) errHR =
         (S_OK, some clast))
    ∧ (configs = [] →
       ConfirmDXVA2UncompFormat (some (pre ++ q :: rest)) errHR =
         (E_FAIL, none)) := by
  have hbase : ConfirmDXVA2UncompFormat (some (pre ++ q :: rest)) errHR =
      selectConfig configs := by
    show confirmLoop (pre ++ q :: rest) = selectConfig configs
    rw [confirmLoop_skip pre (q :: rest) hpre]
    simp [confirmLoop, hq, hqc]
  refine ⟨?_, ?_, ?_⟩
  · intro hsplit hl1 hraw
    rw [hbase, hsplit]
    unfold selectConfig
    rw [selectConfigLoop_first_raw l1 l2 craw hl1 hraw none]
  · intro hnone hsplit
    rw [hbase, hsplit]
    unfold selectConfig
    rw [selectConfigLoop_no_raw l1 clast (by rw [hsplit] at hnone; exact hnone)
      none]
    simp
  · intro hempty
    rw [hbase, hempty]
    rfl

/-- Witness for the amended C4: a failing NV12 target first, then one whose
query returns `[cfgA, craw]` with the raw-bitstream flag on the second
configuration. -/
theorem claim_C4_witness :
    (([cfgA] : List ConfigPictureDecode) ++ ⟨2, 7⟩ :: [] = [cfgA, ⟨2, 7⟩] →
       (∀ c ∈ ([cfgA] : List ConfigPictureDecode),
         c.configBitstreamRaw ≠ 2) →
       (⟨2, 7⟩ : ConfigPictureDecode).configBitstreamRaw = 2 →
       ConfirmDXVA2UncompFormat
         (some ([⟨FOURCC_NV12, none⟩] ++
           (⟨FOURCC_NV12, some [cfgA, ⟨2, 7⟩]⟩ : RenderTarget) :: []))
         E_FAIL = (S_OK, some ⟨2, 7⟩))
    ∧ ((∀ c ∈ ([cfgA, ⟨2, 7⟩] : List ConfigPictureDecode),
         c.configBitstreamRaw ≠ 2) →
       ([cfgA, ⟨2, 7⟩] : List ConfigPictureDecode) = [cfgA] ++ [cfgB] →
       ConfirmDXVA2UncompFormat
         (some ([⟨FOURCC_NV12, none⟩] ++
           (⟨FOURCC_NV12, some [cfgA, ⟨2, 7⟩]⟩ : RenderTarget) :: []))
         E_FAIL = (S_OK, some cfgB))
    ∧ (([cfgA, ⟨2, 7⟩] : List ConfigPictureDecode) = [] →
       ConfirmDXVA2UncompFormat
         (some ([⟨FOURCC_NV12, none⟩] ++
           (⟨FOURCC_NV12, some [cfgA, ⟨2, 7⟩]⟩ : RenderTarget) :: []))
         E_FAIL = (E_FAIL, none)) :=
  claim_C4_amended [⟨FOURCC_NV12, none⟩] [] ⟨FOURCC_NV12, some [cfgA, ⟨2, 7⟩]⟩
    [cfgA, ⟨2, 7⟩] [cfgA] [] ⟨2, 7⟩ cfgB E_FAIL (by decide) rfl rfl

/-- Claim C5: code bug.  After `setSurface` binds a non-null surface,
`GetService(MR_BUFFER_SERVICE, …)` is supposed to delegate to the bound
surface's `QueryInterface`; the code's test is inverted
(`if (m_surface) return E_NOINTERFACE;`), so a bound sample answers
`E_NOINTERFACE` without delegating (and an unbound one would dereference
null).  The unsupported-service branch behaves as specified. -/
theorem claim_C5_bug :
    (DXVA2Sample.new.setSurface 3 (some 7)).m_surface = some 7
    ∧ DXVA2Sample.GetService (DXVA2Sample.new.setSurface 3 (some 7))
        MR_BUFFER_SERVICE = .ret E_NOINTERFACE
    ∧ DXVA2Sample.GetService (DXVA2Sample.new.setSurface 3 (some 7)) 2 =
        .ret MF_E_UNSUPPORTED_SERVICE
    ∧ DXVA2Sample.GetService DXVA2Sample.new MR_BUFFER_SERVICE =
        .nullDeref := by
  decide

/-- Claim C6: code bug.  For a media-stream sample whose buffer is exactly
as large as its payload (`GetSize = dataLength = 100`) and padding 8, the
size check `GetSize() < dataLength + padding` fires its `assert(false)` —
a no-op in release builds, with the reconfiguration left as a comment —
and `Receive` still performs the zero-fill of bytes [100, 108), past the
100-byte buffer: the padding write is out of bounds. -/
theorem claim_C6_bug :
    (receivePadding ⟨100, 100⟩ 8).assertViolated = true
    ∧ (receivePadding ⟨100, 100⟩ 8).memsetStart = 100
    ∧ (receivePadding ⟨100, 100⟩ 8).memsetLen = 8
    ∧ ¬ paddingWriteInBounds ⟨100, 100⟩ (receivePadding ⟨100, 100⟩ 8) := by
  decide

/-- Claim C7: when the first decode step reports the need-more-input status
`S_FALSE` (and the output-sample acquisition before it succeeded, so the
decode call actually ran), the dispatch loop of `Receive` returns `S_OK`
having made exactly one backend call — the decode — with no
`DisplayNextFrame` call and no `Deliver` call. -/
theorem claim_C7 (steps : Nat → DecodeStep) (remaining lastHR : Int)
    (fuel : Nat) (hrem : 0 < remaining)
    (hinit : FAILED (steps 0).initHR = false)
    (hdec : (steps 0).decodeHR = S_FALSE) :
    receiveLoop steps 0 remaining lastHR (fuel + 1) =
      some (S_OK, [.decode])
    ∧ LoopEvent.display ∉ [LoopEvent.decode]
    ∧ LoopEvent.deliver ∉ [LoopEvent.decode] := by
  refine ⟨?_, by simp, by simp⟩
  unfold receiveLoop
  rw [if_neg (by omega : ¬remaining ≤ 0)]
  simp [hinit, hdec]

/-- Decode-step answers used by the C7 witness: decode immediately reports
`S_FALSE`. -/
def stepNeedMore : DecodeStep := ⟨S_OK, S_FALSE, 0, S_OK, S_OK⟩

/-- Witness for C7 on a 10-byte sample. -/
theorem claim_C7_witness :
    receiveLoop (fun _ => stepNeedMore) 0 10 S_OK 5 = some (S_OK, [.decode])
    ∧ LoopEvent.display ∉ [LoopEvent.decode]
    ∧ LoopEvent.deliver ∉ [LoopEvent.decode] :=
  claim_C7 (fun _ => stepNeedMore) 10 S_OK 4 (by decide) (by decide)
    (by decide)

lemma dxva2CandidateLoop_allFail (env : DXVA2Env) :
    ∀ l : List DXVA2Candidate,
      (∀ c ∈ l, c.supported = false ∨ c.confirm = none) →
      dxva2CandidateLoop env l = ⟨E_FAIL, false, none⟩ := by
  intro l
  induction l with
  | nil => intro _; rfl
  | cons c rest ih =>
    intro hl
    have hrest : ∀ x ∈ rest, x.supported = false ∨ x.confirm = none :=
      fun x hx => hl x (by simp [hx])
    have hstep : dxva2CandidateLoop env (c :: rest) =
        dxva2CandidateLoop env rest := by
      rcases hl c (by simp) with hc | hc
      · simp [dxva2CandidateLoop, hc]
      · by_cases hs : c.supported
        · simp [dxva2CandidateLoop, hs, hc]
        · simp [dxva2CandidateLoop, hs]
    rw [hstep]
    exact ih hrest

/-- Claim C8: when legacy HW was not activated (`m_decoder` empty on
entering the output-pin branch of `CompleteConnect`) and no enumerated
DXVA2 candidate both passes `IsFormatSupported` and completes
format/configuration negotiation, `ActivateDXVA2` fails without allocating
any decoder surface pool, and `CompleteConnect` installs the software
backend `CH264SWDecoder` (whose construction cannot fail). -/
theorem claim_C8 (env : DXVA2Env) (initOK : Bool)
    (hcand : ∀ c ∈ env.candidates, c.supported = false ∨ c.confirm = none) :
    FAILED (ActivateDXVA2 env).hr = true
    ∧ (ActivateDXVA2 env).poolAllocated = false
    ∧ (ActivateDXVA2 env).decoder = none
    ∧ CompleteConnectOutput none initOK env = (some .software, false) := by
  have hact : FAILED (ActivateDXVA2 env).hr = true
      ∧ (ActivateDXVA2 env).poolAllocated = false
      ∧ (ActivateDXVA2 env).decoder = none := by
    unfold ActivateDXVA2
    rw [dxva2CandidateLoop_allFail env env.candidates hcand]
    split_ifs <;> refine ⟨?_, rfl, rfl⟩ <;> first | decide | assumption
  refine ⟨hact.1, hact.2.1, hact.2.2, ?_⟩
  unfold CompleteConnectOutput
  dsimp only
  rw [SUCCEEDED_false_of_FAILED hact.1, hact.2.1]
  simp

/-- Witness for C8: a fully healthy platform service enumerating two
candidates, one failing the format filter and one failing negotiation. -/
theorem claim_C8_witness :
    FAILED (ActivateDXVA2 ⟨true, 0, 0, 0, 0, 0,
        [⟨10, false, some cfgA⟩, ⟨11, true, none⟩], 0, ⟨0, 0, 0⟩⟩).hr = true
    ∧ (ActivateDXVA2 ⟨true, 0, 0, 0, 0, 0,
        [⟨10, false, some cfgA⟩, ⟨11, true, none⟩], 0,
        ⟨0, 0, 0⟩⟩).poolAllocated = false
    ∧ (ActivateDXVA2 ⟨true, 0, 0, 0, 0, 0,
        [⟨10, false, some cfgA⟩, ⟨11, true, none⟩], 0,
        ⟨0, 0, 0⟩⟩).decoder = none
    ∧ CompleteConnectOutput none true ⟨true, 0, 0, 0, 0, 0,
        [⟨10, false, some cfgA⟩, ⟨11, true, none⟩], 0, ⟨0, 0, 0⟩⟩ =
        (some .software, false) :=
  claim_C8 ⟨true, 0, 0, 0, 0, 0, [⟨10, false, some cfgA⟩, ⟨11, true, none⟩],
    0, ⟨0, 0, 0⟩⟩ true (by decide)

/-- Decode-step answers violating the C10 precondition: decode always
succeeds (`S_OK`) while consuming zero bytes; display declines with
`E_NOTIMPL`; delivery succeeds. -/
def zeroUseStep : DecodeStep := ⟨S_OK, S_OK, 0, E_NOTIMPL, S_OK⟩

lemma receiveLoop_zeroUse_none :
    ∀ (fuel k : Nat) (lastHR : Int),
      receiveLoop (fun _ => zeroUseStep) k 1 lastHR fuel = none := by
  intro fuel
  induction fuel with
  | zero =>
    intro k lastHR
    unfold receiveLoop
    rw [if_neg (by omega : ¬(1 : Int) ≤ 0)]
  | succ n ih =>
    intro k lastHR
    unfold receiveLoop
    rw [if_neg (by omega : ¬(1 : Int) ≤ 0)]
    dsimp only
    rw [if_neg (show ¬FAILED zeroUseStep.initHR = true by decide),
      if_neg (show ¬zeroUseStep.decodeHR = S_FALSE by decide),
      if_neg (show ¬FAILED zeroUseStep.decodeHR = true by decide),
      if_pos (show zeroUseStep.displayHR = E_NOTIMPL by decide)]
    dsimp only
    rw [if_neg (show ¬FAILED zeroUseStep.deliverHR = true by decide),
      show (1 : Int) - zeroUseStep.usedBytes = 1 by decide,
      ih (k + 1) zeroUseStep.deliverHR]

lemma receiveLoop_terminates (steps : Nat → DecodeStep)
    (hused : ∀ j, FAILED (steps j).decodeHR = false →
      (steps j).decodeHR ≠ S_FALSE → 1 ≤ (steps j).usedBytes) :
    ∀ (fuel : Nat) (k : Nat) (remaining lastHR : Int),
      remaining.toNat ≤ fuel →
      receiveLoop steps k remaining lastHR fuel ≠ none := by
  intro fuel
  induction fuel with
  | zero =>
    intro k remaining lastHR hle
    unfold receiveLoop
    rw [if_pos (by omega : remaining ≤ 0)]
    simp
  | succ n ih =>
    intro k remaining lastHR hle
    unfold receiveLoop
    by_cases h0 : remaining ≤ 0
    · rw [if_pos h0]; simp
    · rw [if_neg h0]
      dsimp only
      by_cases h1 : FAILED (steps k).initHR = true
      · rw [if_pos h1]; simp
      · rw [if_neg h1]
        by_cases h2 : (steps k).decodeHR = S_FALSE
        · rw [if_pos h2]; simp
        · rw [if_neg h2]
          by_cases h3 : FAILED (steps k).decodeHR = true
          · rw [if_pos h3]; simp
          · rw [if_neg h3]
            have hub : 1 ≤ (steps k).usedBytes :=
              hused k (by simpa using h3) h2
            set ad := if (steps k).displayHR = E_NOTIMPL then
                ((steps k).deliverHR,
                  [LoopEvent.decode, .display, .deliver])
              else ((steps k).displayHR, [LoopEvent.decode, .display])
              with had
            by_cases h4 : FAILED ad.1 = true
            · rw [if_pos h4]; simp
            · rw [if_neg h4]
              have hrec : receiveLoop steps (k + 1)
                  (remaining - (steps k).usedBytes) ad.1 n ≠ none := by
                apply ih
                omega
              cases hr : receiveLoop steps (k + 1)
                  (remaining - (steps k).usedBytes) ad.1 n with
              | none => exact absurd hr hrec
              | some v =>
                obtain ⟨hrv, evs⟩ := v
                simp

/-- Claim C10: under the precondition that every decode call succeeding
with a status other than `S_FALSE` reports `usedBytes ≥ 1`, the dispatch
loop of `Receive` finishes within `remaining` iterations — `dataRemaining`
strictly decreases — while the concrete collaborator `zeroUseStep`
(a successful decode with `usedBytes = 0`) exhausts every fuel bound, i.e.
the loop never terminates. -/
theorem claim_C10 (steps : Nat → DecodeStep) (remaining lastHR : Int)
    (fuel : Nat)
    (hused : ∀ j, FAILED (steps j).decodeHR = false →
      (steps j).decodeHR ≠ S_FALSE → 1 ≤ (steps j).usedBytes)
    (hfuel : remaining.toNat ≤ fuel) :
    receiveLoop steps 0 remaining lastHR fuel ≠ none
    ∧ ∀ fuel' : Nat,
        receiveLoop (fun _ => zeroUseStep) 0 1 S_OK fuel' = none :=
  ⟨receiveLoop_terminates steps hused fuel 0 remaining lastHR hfuel,
   fun fuel' => receiveLoop_zeroUse_none fuel' 0 S_OK⟩

/-- Decode-step answers satisfying the C10 precondition: each decode
consumes one byte. -/
def oneUseStep : DecodeStep := ⟨S_OK, S_OK, 1, E_NOTIMPL, S_OK⟩

/-- Witness for C10 on a 3-byte sample with fuel 3. -/
theorem claim_C10_witness :
    receiveLoop (fun _ => oneUseStep) 0 3 S_OK 3 ≠ none :=
  (claim_C10 (fun _ => oneUseStep) 3 S_OK 3
    (fun j h1 h2 => show 1 ≤ oneUseStep.usedBytes by decide) (by decide)).1

lemma range_succ_reverse (n : Nat) :
    (List.range (n + 1)).reverse = n :: (List.range n).reverse := by
  rw [List.range_succ, List.reverse_append]
  rfl

lemma allocLoop_spec (env : AllocEnv) :
    ∀ (i : Nat) (r : Int) (acc : List (Nat × Surface)),
      SUCCEEDED r = true →
      ((allocLoop env i r acc).2.1 = false →
        SUCCEEDED (allocLoop env i r acc).1 = true
        ∧ (allocLoop env i r acc).2.2.map Prod.fst =
            acc.map Prod.fst ++ (List.range i).reverse
        ∧ ∀ p ∈ (allocLoop env i r acc).2.2,
            p ∈ acc ∨ env.surfaceAt p.1 = some p.2)
      ∧ ((allocLoop env i r acc).2.1 = true →
          FAILED (allocLoop env i r acc).1 = true) := by
  intro i
  induction i with
  | zero =>
    intro r acc hr
    refine ⟨fun _ => ⟨hr, by simp [allocLoop], fun p hp => Or.inl ?_⟩, ?_⟩
    · simpa [allocLoop] using hp
    · intro hbrk
      simp [allocLoop] at hbrk
  | succ n ih =>
    intro r acc hr
    unfold allocLoop
    by_cases hf : FAILED (env.sampleCreateHR n) = true
    · rw [if_pos hf]
      exact ⟨fun h => by simp at h, fun _ => hf⟩
    · rw [if_neg hf]
      cases hs : env.surfaceAt n with
      | none =>
        exact ⟨fun h => by simp at h,
          fun _ => (by decide : FAILED E_UNEXPECTED = true)⟩
      | some s =>
        have := ih (env.sampleCreateHR n) (acc ++ [(n, s)])
          (SUCCEEDED_of_FAILED_false (by simpa using hf))
        refine ⟨fun hbrk => ?_, this.2⟩
        obtain ⟨hok, hmap, hmem⟩ := this.1 hbrk
        refine ⟨hok, ?_, fun p hp => ?_⟩
        · rw [hmap, range_succ_reverse, List.map_append]
          simp
        · rcases hmem p hp with hin | hsurf
          · rcases List.mem_append.mp hin with h | h
            · exact Or.inl h
            · simp only [List.mem_singleton] at h
              subst h
              exact Or.inr hs
          · exact Or.inr hsurf

/-- Claim C9: with `CBaseAllocator::Alloc` succeeding, a successful
`CDXVA2Allocator::Alloc` constructs exactly `m_lCount` samples, in strictly
descending slot order `m_lCount-1, …, 0`, each bound to the decoder surface
at its own index; and any mid-allocation failure (sample construction or a
null surface) leaves an empty pool — every sample constructed so far is
freed. -/
theorem claim_C9 (env : AllocEnv) (prev : List (Nat × Surface))
    (hbase : SUCCEEDED env.baseAllocHR = true) :
    (SUCCEEDED (AllocatorAlloc env prev).1 = true →
       (AllocatorAlloc env prev).2.map Prod.fst =
         (List.range env.count.toNat).reverse
       ∧ ∀ p ∈ (AllocatorAlloc env prev).2, env.surfaceAt p.1 = some p.2)
    ∧ (FAILED (AllocatorAlloc env prev).1 = true →
       (AllocatorAlloc env prev).2 = []) := by
  have hspec := allocLoop_spec env env.count.toNat env.baseAllocHR [] hbase
  unfold AllocatorAlloc
  rw [if_neg (by rw [FAILED_false_of_SUCCEEDED hbase]; simp)]
  rcases hres : allocLoop env env.count.toNat env.baseAllocHR [] with
    ⟨r, brk, acc⟩
  rw [hres] at hspec
  cases brk with
  | false =>
    obtain ⟨hok, hmap, hmem⟩ := hspec.1 rfl
    refine ⟨fun _ => ⟨by simpa using hmap, fun p hp => ?_⟩, fun hfail => ?_⟩
    · rcases hmem p hp with h | h
      · simp at h
      · exact h
    · exact absurd (SUCCEEDED_false_of_FAILED hfail) (by simp [hok])
  | true =>
    have hfail := hspec.2 rfl
    exact ⟨fun hok => absurd (SUCCEEDED_false_of_FAILED hfail)
      (by simp [hok]), fun _ => rfl⟩

/-- Witness for C9: three slots, every constructor succeeding, surface `i`
stored at handle `i + 100`. -/
theorem claim_C9_witness :
    (SUCCEEDED (AllocatorAlloc
        ⟨S_OK, 3, fun _ => S_OK, fun i => some (i + 100)⟩ []).1 = true →
       (AllocatorAlloc
         ⟨S_OK, 3, fun _ => S_OK, fun i => some (i + 100)⟩ []).2.map
           Prod.fst = (List.range (3 : Int).toNat).reverse
       ∧ ∀ p ∈ (AllocatorAlloc
           ⟨S_OK, 3, fun _ => S_OK, fun i => some (i + 100)⟩ []).2,
           (fun i => some (i + 100) : Nat → Option Surface) p.1 = some p.2)
    ∧ (FAILED (AllocatorAlloc
        ⟨S_OK, 3, fun _ => S_OK, fun i => some (i + 100)⟩ []).1 = true →
       (AllocatorAlloc
         ⟨S_OK, 3, fun _ => S_OK, fun i => some (i + 100)⟩ []).2 = []) :=
  claim_C9 ⟨S_OK, 3, fun _ => S_OK, fun i => some (i + 100)⟩ [] (by decide)

end H264Dec
